import Mathlib

/-!
Verification of the once-only initialization coordinator of this repository:
`backend/init.sh` (the seeder coordinator: completion marker, flock-based
mutual exclusion, database readiness wait) and `backend/entrypoint.sh`
(the hosting entrypoint that runs the coordinator before starting the app).

The shell scripts are shallowly embedded as pure Lean functions over
explicit environment records.  Nondeterministic facts of the world
(whether `psql` answers, whether `touch` succeeds, whether `flock`
obtains the lock in time, whether the seeder exits 0) are inputs; the
scripts' control flow is translated branch by branch from the source.
-/

namespace InitCoordinator

/-- State of the filesystem object at the marker path `$FLAG_FILE`:
a regular file, a directory (carrying whether the inner regular file
`$FLAG_FILE/.seeder_completed` exists), or nothing at that path. -/
inductive FsNode where
  | file : FsNode
  | dir : Bool → FsNode
  | absent : FsNode
deriving DecidableEq, Repr

/-- The filesystem facts relevant to the marker: the node at the marker
path, and whether the parent directory of the marker path exists. -/
structure MarkerFs where
  node : FsNode
  parentExists : Bool
deriving DecidableEq, Repr

/-- Function `check_flag_exists` from `backend/init.sh`: returns success (true)
when `[ -f "$FLAG_FILE" ]`, or when
`[ -d "$FLAG_FILE" ] && [ -f "$FLAG_FILE/.seeder_completed" ]`. -/
def check_flag_exists : FsNode → Bool
  | FsNode.file => true
  | FsNode.dir inner => inner
  | FsNode.absent => false

/-- Outcome of the `touch "$target_file"` command as an environment fact:
it either succeeds normally, fails with a nonzero exit (`failCmd`), or
reports success while the file is nevertheless not present afterwards
(`failVanish` — the read-back check in the script is there for this). -/
inductive TouchResult where
  | ok : TouchResult
  | failCmd : TouchResult
  | failVanish : TouchResult
deriving DecidableEq, Repr

/-- The two failure returns of `create_flag`: the `touch` command failed,
or the post-write read-back `[ ! -f "$target_file" ]` found no file. -/
inductive CreateFlagError where
  | touchFailed : CreateFlagError
  | verifyFailed : CreateFlagError
deriving DecidableEq, Repr

/-- Function `create_flag` from `backend/init.sh`.  If `$FLAG_FILE` is a directory
the target is the inner file `.seeder_completed`, otherwise the target is
`$FLAG_FILE` itself.  The script then runs `touch "$target_file"`
(plain `touch`: it creates the file only when the target's parent
directory exists, and never creates intermediate directories), returns 1
if `touch` failed, re-checks `[ -f "$target_file" ]` and returns 1 if the
file is not there, else returns 0. -/
def create_flag (fs : MarkerFs) (tr : TouchResult) :
    Except CreateFlagError MarkerFs :=
  match fs.node with
  | FsNode.dir _ =>
      -- target lives inside the existing directory $FLAG_FILE
      if tr = TouchResult.failCmd then Except.error CreateFlagError.touchFailed
      else if tr = TouchResult.failVanish then Except.error CreateFlagError.verifyFailed
      else Except.ok { fs with node := FsNode.dir true }
  | FsNode.file =>
      -- target is $FLAG_FILE, which already exists as a file
      if tr = TouchResult.failCmd then Except.error CreateFlagError.touchFailed
      else if tr = TouchResult.failVanish then Except.error CreateFlagError.verifyFailed
      else Except.ok fs
  | FsNode.absent =>
      -- target is $FLAG_FILE; plain touch needs the parent directory
      if fs.parentExists = false ∨ tr = TouchResult.failCmd then
        Except.error CreateFlagError.touchFailed
      else if tr = TouchResult.failVanish then Except.error CreateFlagError.verifyFailed
      else Except.ok { fs with node := FsNode.file }

/-- Environment facts consumed by `wait_for_database`: availability of the
client tools, whether `DATABASE_URL` is set and nonempty, and for each
poll-loop iteration whether `psql "$SYNC_URL" -c "SELECT 1;"` succeeds
and whether `nc -z "$db_host" "$db_port"` succeeds. -/
structure DbEnv where
  pgIsreadyAvailable : Bool
  databaseUrlSet : Bool
  psqlAvailable : Bool
  psqlOk : Nat → Bool
  ncAvailable : Bool
  ncOk : Nat → Bool

/-- Result of the poll loop in `wait_for_database`, carrying the value of
`db_elapsed` at the moment the loop ends. -/
inductive WaitOutcome where
  | ready : Nat → WaitOutcome
  | timedOut : Nat → WaitOutcome
deriving DecidableEq, Repr

/-- The `while [ $db_elapsed -lt $db_timeout ]` poll loop of
`wait_for_database` in `backend/init.sh`, with explicit fuel (the shell
loop has no structural termination guarantee).  Each iteration: if `psql`
is available and the functional query succeeds, return ready; otherwise
if `nc` is available and the port probe succeeds, `sleep 2; continue`
WITHOUT touching `db_elapsed`; otherwise `sleep $db_interval` and add
`db_interval` to `db_elapsed`.  `none` means the fuel ran out with the
loop still running. -/
def wait_loop (env : DbEnv) (dbTimeout dbInterval : Nat) :
    Nat → Nat → Nat → Option WaitOutcome
  | 0, _, _ => none
  | fuel + 1, iter, elapsed =>
      if elapsed < dbTimeout then
        if env.psqlAvailable && env.psqlOk iter then
          some (WaitOutcome.ready elapsed)
        else if env.ncAvailable && env.ncOk iter then
          wait_loop env dbTimeout dbInterval fuel (iter + 1) elapsed
        else
          wait_loop env dbTimeout dbInterval fuel (iter + 1) (elapsed + dbInterval)
      else
        some (WaitOutcome.timedOut elapsed)

/-- Function `wait_for_database` from `backend/init.sh`: returns 1 early when
`pg_isready` is missing or `DATABASE_URL` is empty; otherwise (after the
fixed initial `sleep 15`) runs the poll loop.  `some true` models
`return 0` (database ready), `some false` models `return 1` (precondition
failure or timeout), `none` models a loop that is still running after
`fuel` iterations. -/
def wait_for_database (env : DbEnv) (dbTimeout dbInterval fuel : Nat) :
    Option Bool :=
  if env.pgIsreadyAvailable = false then some false
  else if env.databaseUrlSet = false then some false
  else
    match wait_loop env dbTimeout dbInterval fuel 0 0 with
    | none => none
    | some (WaitOutcome.ready _) => some true
    | some (WaitOutcome.timedOut _) => some false

/-- Function `safe_cd` from `backend/init.sh`: succeeds when the target directory
exists and the `cd` itself succeeds. -/
def safe_cd (dirExists cdSucceeds : Bool) : Bool :=
  dirExists && cdSucceeds

/-- Terminal state of one execution of `backend/init.sh`.  Each `failed*`
constructor is one of the script's `exit 1` branches; `completed` and
`skipped` both exit 0; `diverged` marks an execution stuck inside
`wait_for_database` (fuel exhausted without the loop ending). -/
inductive RunOutcome where
  | completed : RunOutcome
  | skipped : RunOutcome
  | failedLockTimeout : RunOutcome
  | failedDepTimeout : RunOutcome
  | failedCd : RunOutcome
  | failedSeeder : RunOutcome
  | failedFlag : RunOutcome
  | diverged : RunOutcome
deriving DecidableEq, Repr

/-- Process exit code of the script for a given terminal state (`none`
for an execution that never terminates). -/
def runExitCode : RunOutcome → Option Nat
  | RunOutcome.completed => some 0
  | RunOutcome.skipped => some 0
  | RunOutcome.failedLockTimeout => some 1
  | RunOutcome.failedDepTimeout => some 1
  | RunOutcome.failedCd => some 1
  | RunOutcome.failedSeeder => some 1
  | RunOutcome.failedFlag => some 1
  | RunOutcome.diverged => none

/-- Environment facts consumed by one execution of `backend/init.sh`:
whether `flock` obtained the lock (either `flock -n 200` at once or
`flock -w 300 200` within the 300 s bound), the database-probe
environment with the script's `DB_TIMEOUT`/`DB_INTERVAL` values and loop
fuel, whether `/app` exists and `cd /app` succeeds, whether
`python -m db.seeder` exits 0, and the outcome of the marker `touch`. -/
structure RunEnv where
  lockAcquired : Bool
  db : DbEnv
  dbTimeout : Nat
  dbInterval : Nat
  dbFuel : Nat
  appDirExists : Bool
  cdSucceeds : Bool
  seederOk : Bool
  touch : TouchResult

/-- Observable result of one execution of `backend/init.sh`: terminal
state, marker filesystem state afterwards, whether `python -m db.seeder`
was invoked, whether `create_flag` succeeded in this run, whether the
`flock` lock was ever held, and whether it is free again at the end. -/
structure RunResult where
  outcome : RunOutcome
  marker : MarkerFs
  seederInvoked : Bool
  flagCreated : Bool
  lockHeldEver : Bool
  lockReleased : Bool
deriving DecidableEq, Repr

/-- One execution of the main body of `backend/init.sh` on marker state
`m`.  Translated branch by branch from the source: open `$LOCK_FILE` on
fd 200 and take the lock (`flock -n`, falling back to `flock -w 300`;
on failure `exit 1` with no lock ever held); inside the lock run
`check_flag_exists` — if the flag is present, skip the seeder and fall
through to the final `flock -u 200`; otherwise `wait_for_database`
(failure: `flock -u 200; exit 1`), `safe_cd /app` (failure: `flock -u
200; exit 1`), `python -m db.seeder` (failure: `flock -u 200; exit 1`),
`create_flag` (failure: `flock -u 200; exit 1`), then the final
`flock -u 200` and exit 0. -/
def run_init (e : RunEnv) (m : MarkerFs) : RunResult :=
  if e.lockAcquired = false then
    { outcome := RunOutcome.failedLockTimeout, marker := m,
      seederInvoked := false, flagCreated := false,
      lockHeldEver := false, lockReleased := true }
  else if check_flag_exists m.node then
    { outcome := RunOutcome.skipped, marker := m,
      seederInvoked := false, flagCreated := false,
      lockHeldEver := true, lockReleased := true }
  else
    match wait_for_database e.db e.dbTimeout e.dbInterval e.dbFuel with
    | none =>
        { outcome := RunOutcome.diverged, marker := m,
          seederInvoked := false, flagCreated := false,
          lockHeldEver := true, lockReleased := false }
    | some false =>
        { outcome := RunOutcome.failedDepTimeout, marker := m,
          seederInvoked := false, flagCreated := false,
          lockHeldEver := true, lockReleased := true }
    | some true =>
        if safe_cd e.appDirExists e.cdSucceeds = false then
          { outcome := RunOutcome.failedCd, marker := m,
            seederInvoked := false, flagCreated := false,
            lockHeldEver := true, lockReleased := true }
        else if e.seederOk then
          match create_flag m e.touch with
          | Except.ok mNew =>
              { outcome := RunOutcome.completed, marker := mNew,
                seederInvoked := true, flagCreated := true,
                lockHeldEver := true, lockReleased := true }
          | Except.error _ =>
              { outcome := RunOutcome.failedFlag, marker := m,
                seederInvoked := true, flagCreated := false,
                lockHeldEver := true, lockReleased := true }
        else
          { outcome := RunOutcome.failedSeeder, marker := m,
            seederInvoked := true, flagCreated := false,
            lockHeldEver := true, lockReleased := true }

/-- N coordinator instances executed one after the other on the shared
marker state.  The `flock` on the shared `$LOCK_FILE` serialises the
whole body of `backend/init.sh` (every read and write of the marker
happens inside the critical section), so any concurrent launch is
observationally one sequential order of the instances; the list order is
that serialisation order. -/
def run_all : List RunEnv → MarkerFs → List RunResult × MarkerFs
  | [], m => ([], m)
  | e :: rest, m =>
      let r := run_init e m
      let res := run_all rest r.marker
      (r :: res.1, res.2)

/-- A database environment in which the very first functional check
(`psql ... -c "SELECT 1;"`) succeeds: the tools are present,
`DATABASE_URL` is set, and `psqlOk 0` holds. -/
def healthyDb (d : DbEnv) : Prop :=
  d.pgIsreadyAvailable = true ∧ d.databaseUrlSet = true ∧
  d.psqlAvailable = true ∧ d.psqlOk 0 = true

/-- A fully healthy instance environment: the lock is obtained within
its bound, the database answers the first functional check, timeouts and
fuel are positive, `/app` is reachable, the seeder succeeds, and the
marker `touch` behaves normally. -/
def healthyEnv (e : RunEnv) : Prop :=
  e.lockAcquired = true ∧ healthyDb e.db ∧ 0 < e.dbTimeout ∧
  0 < e.dbFuel ∧ e.appDirExists = true ∧ e.cdSucceeds = true ∧
  e.seederOk = true ∧ e.touch = TouchResult.ok

/-- Result of one execution of `backend/entrypoint.sh`: whether the
missing-`init.sh` warning was printed, whether `bash /app/init.sh` was
invoked, whether `exec python main.py` was reached, and the entrypoint's
own exit code when it terminated before the exec. -/
structure EntryResult where
  warned : Bool
  ranInit : Bool
  startedMain : Bool
  earlyExit : Option Nat
deriving DecidableEq, Repr

/-- Script `backend/entrypoint.sh` under `set -euo pipefail`: if `/app/init.sh`
exists it is run, and a nonzero exit of `bash /app/init.sh` terminates
the entrypoint (set -e) before `exec python main.py`; if the script file
is missing, only a warning is printed and the entrypoint proceeds
straight to `exec python main.py`. -/
def entrypoint (initScriptExists : Bool) (initExit : Nat) : EntryResult :=
  if initScriptExists then
    if initExit = 0 then
      { warned := false, ranInit := true, startedMain := true,
        earlyExit := none }
    else
      { warned := false, ranInit := true, startedMain := false,
        earlyExit := some initExit }
  else
    { warned := true, ranInit := false, startedMain := true,
      earlyExit := none }

/-! Concrete environments used to witness the theorems. -/

/-- A database environment in which every functional check succeeds. -/
def demoDb : DbEnv :=
  { pgIsreadyAvailable := true, databaseUrlSet := true, psqlAvailable := true,
    psqlOk := fun _ => true, ncAvailable := true, ncOk := fun _ => true }

/-- A database environment in which the TCP port probe (`nc -z`) always
succeeds but the functional `psql` query always fails. -/
def tcpOnlyDb : DbEnv :=
  { pgIsreadyAvailable := true, databaseUrlSet := true, psqlAvailable := true,
    psqlOk := fun _ => false, ncAvailable := true, ncOk := fun _ => true }

/-- A fully healthy instance environment with the script's default
`DB_TIMEOUT=60` and `DB_INTERVAL=5`. -/
def demoEnv : RunEnv :=
  { lockAcquired := true, db := demoDb, dbTimeout := 60, dbInterval := 5,
    dbFuel := 30, appDirExists := true, cdSucceeds := true, seederOk := true,
    touch := TouchResult.ok }

/-- Like `demoEnv` but `python -m db.seeder` exits nonzero. -/
def demoSeederFail : RunEnv :=
  { demoEnv with seederOk := false }

/-- Like `demoEnv` but the marker `touch` reports success while the file
is not present afterwards (the read-back check fails). -/
def demoTouchVanish : RunEnv :=
  { demoEnv with touch := TouchResult.failVanish }

/-- Marker state with nothing at the marker path and an existing parent
directory. -/
def markerAbsent : MarkerFs :=
  { node := FsNode.absent, parentExists := true }

/-- Marker state with the plain-file marker present. -/
def markerFilePresent : MarkerFs :=
  { node := FsNode.file, parentExists := true }

/-- Marker state with nothing at the marker path and no parent directory
either. -/
def markerNoParent : MarkerFs :=
  { node := FsNode.absent, parentExists := false }

lemma demoEnv_healthy : healthyEnv demoEnv :=
  ⟨rfl, ⟨rfl, rfl, rfl, rfl⟩, by decide, by decide, rfl, rfl, rfl, rfl⟩

/-! Helper lemmas about the embedded coordinator. -/

lemma wait_for_database_healthy (d : DbEnv) (dbTimeout dbInterval fuel : Nat)
    (hd : healthyDb d) (ht : 0 < dbTimeout) (hf : 0 < fuel) :
    wait_for_database d dbTimeout dbInterval fuel = some true := by
  obtain ⟨h1, h2, h3, h4⟩ := hd
  obtain ⟨f, rfl⟩ := Nat.exists_eq_succ_of_ne_zero (Nat.pos_iff_ne_zero.mp hf)
  simp [wait_for_database, h1, h2, wait_loop, ht, h3, h4]

lemma run_init_flag_present (e : RunEnv) (m : MarkerFs)
    (hl : e.lockAcquired = true) (hm : check_flag_exists m.node = true) :
    run_init e m =
      { outcome := RunOutcome.skipped, marker := m, seederInvoked := false,
        flagCreated := false, lockHeldEver := true, lockReleased := true } := by
  simp [run_init, hl, hm]

lemma run_init_healthy_absent (e : RunEnv) (m : MarkerFs)
    (he : healthyEnv e) (hm : m.node = FsNode.absent)
    (hp : m.parentExists = true) :
    run_init e m =
      { outcome := RunOutcome.completed,
        marker := { node := FsNode.file, parentExists := true },
        seederInvoked := true, flagCreated := true,
        lockHeldEver := true, lockReleased := true } := by
  obtain ⟨hl, hd, ht, hf, happ, hcd, hs, htouch⟩ := he
  have hw := wait_for_database_healthy e.db e.dbTimeout e.dbInterval e.dbFuel hd ht hf
  simp [run_init, hl, hm, check_flag_exists, hw, safe_cd, happ, hcd, hs,
    create_flag, htouch, hp]

lemma run_all_flag_present (envs : List RunEnv) (m : MarkerFs)
    (h : ∀ e ∈ envs, e.lockAcquired = true)
    (hm : check_flag_exists m.node = true) :
    run_all envs m =
      (envs.map (fun _ =>
        ({ outcome := RunOutcome.skipped, marker := m, seederInvoked := false,
           flagCreated := false, lockHeldEver := true,
           lockReleased := true } : RunResult)), m) := by
  induction envs with
  | nil => simp [run_all]
  | cons e rest ih =>
      have he := h e (List.mem_cons_self e rest)
      have hrest : ∀ x ∈ rest, x.lockAcquired = true :=
        fun x hx => h x (List.mem_cons_of_mem e hx)
      simp [run_all, run_init_flag_present e m he hm, ih hrest]

lemma run_init_released_or_diverged (e : RunEnv) (m : MarkerFs) :
    (run_init e m).outcome = RunOutcome.diverged ∨
    (run_init e m).lockReleased = true := by
  unfold run_init
  repeat' split
  all_goals simp

lemma wait_loop_tcp_only (fuel iter : Nat) :
    wait_loop tcpOnlyDb 60 5 fuel iter 0 = none := by
  induction fuel generalizing iter with
  | zero => rfl
  | succ f ih =>
      simpa [wait_loop, tcpOnlyDb] using ih (iter + 1)

/-! Claim theorems. -/

/-- Claim C7: for every state of the marker location, `check_flag_exists`
returns true if and only if either physical representation indicates
completion: the marker path is a plain file, or it is a directory
containing the inner marker file `.seeder_completed`. -/
theorem check_flag_exists_iff_representation (n : FsNode) :
    check_flag_exists n = true ↔ n = FsNode.file ∨ n = FsNode.dir true := by
  cases n <;> simp [check_flag_exists]

/-- Claim C10: when `/app/init.sh` does not exist, the entrypoint emits
only the warning and proceeds straight to `exec python main.py`, with no
initialization run (hence no marker check and no lock acquisition). -/
theorem entrypoint_missing_init_proceeds (c : Nat) :
    entrypoint false c =
      { warned := true, ranInit := false, startedMain := true,
        earlyExit := none } := rfl

/-- Counterexample to claim C2: a run that starts with the completion
marker present terminates SKIPPED, yet it does acquire the lock — the
script takes the `flock` before its only marker check, so there is no
pre-lock fast path. -/
theorem run_with_marker_present_acquires_lock :
    (run_init demoEnv markerFilePresent).outcome = RunOutcome.skipped ∧
    (run_init demoEnv markerFilePresent).lockHeldEver = true := by
  constructor <;> rfl

/-- Claim C2 (amended): every run that starts with the marker present and
obtains the lock terminates SKIPPED with exit code 0 without invoking the
seeder; the marker check happens only inside the lock, which is acquired
and then released with the marker untouched. -/
theorem marker_present_skips_inside_lock (e : RunEnv) (m : MarkerFs)
    (hl : e.lockAcquired = true) (hm : check_flag_exists m.node = true) :
    run_init e m =
      { outcome := RunOutcome.skipped, marker := m, seederInvoked := false,
        flagCreated := false, lockHeldEver := true, lockReleased := true } ∧
    runExitCode RunOutcome.skipped = some 0 :=
  ⟨run_init_flag_present e m hl hm, rfl⟩

theorem marker_present_skips_inside_lock_witness :
    run_init demoEnv markerFilePresent =
      { outcome := RunOutcome.skipped, marker := markerFilePresent,
        seederInvoked := false, flagCreated := false,
        lockHeldEver := true, lockReleased := true } ∧
    runExitCode RunOutcome.skipped = some 0 :=
  marker_present_skips_inside_lock demoEnv markerFilePresent rfl rfl

/-- Claim C3 (refuted by the code, a bug): if the dependency's TCP port is
reachable (`nc -z` succeeds) while the functional `psql` query keeps
failing, the poll loop of `wait_for_database` never terminates for any
number of iterations — the `continue` in the netcat branch skips the
`db_elapsed` increment, so the loop condition never becomes false and the
configured timeout is never reached, contradicting the bounded-wait
claim. -/
theorem wait_for_database_port_open_diverges (fuel : Nat) :
    wait_for_database tcpOnlyDb 60 5 fuel = none := by
  unfold wait_for_database
  rw [wait_loop_tcp_only fuel 0]
  rfl

/-- Claim C4: for every terminal outcome of a run that acquired the lock,
the lock is released before the script terminates, on every branch
(completed, skipped after the in-lock re-check, and each failure exit). -/
theorem lock_released_on_termination (e : RunEnv) (m : MarkerFs)
    (hterm : (run_init e m).outcome ≠ RunOutcome.diverged)
    (_hheld : (run_init e m).lockHeldEver = true) :
    (run_init e m).lockReleased = true := by
  rcases run_init_released_or_diverged e m with h | h
  · exact absurd h hterm
  · exact h

theorem lock_released_on_termination_witness :
    (run_init demoEnv markerAbsent).lockReleased = true :=
  lock_released_on_termination demoEnv markerAbsent (by decide) (by decide)

/-- Counterexample to claim C6: with nothing at the marker path and the
parent directory missing, `create_flag` fails (plain `touch` does not
create intermediate directories) instead of succeeding as claimed. -/
theorem create_flag_missing_parent_cex :
    create_flag markerNoParent TouchResult.ok =
      Except.error CreateFlagError.touchFailed := rfl

/-- Claim C6 (amended): for every marker path whose parent location does
not yet exist (and with nothing at the marker path itself), `create_flag`
fails with the touch error and reports it, for every behaviour of the
`touch` command — it does not create the intermediate directory
structure. -/
theorem create_flag_missing_parent_fails (m : MarkerFs) (tr : TouchResult)
    (hm : m.node = FsNode.absent) (hp : m.parentExists = false) :
    create_flag m tr = Except.error CreateFlagError.touchFailed := by
  simp [create_flag, hm, hp]

theorem create_flag_missing_parent_fails_witness :
    create_flag markerNoParent TouchResult.failVanish =
      Except.error CreateFlagError.touchFailed :=
  create_flag_missing_parent_fails markerNoParent TouchResult.failVanish rfl rfl

/-- Claim C8: if after a successful seeder run the marker write fails or
cannot be verified by read-back, the run reports the failure reason,
releases the lock, exits nonzero, and leaves the marker state unchanged
(still unset), so the next start re-runs the action. -/
theorem marker_write_failure_fails_loudly (e : RunEnv) (m : MarkerFs)
    (err : CreateFlagError)
    (hl : e.lockAcquired = true) (hm : check_flag_exists m.node = false)
    (hdb : wait_for_database e.db e.dbTimeout e.dbInterval e.dbFuel = some true)
    (hcd : safe_cd e.appDirExists e.cdSucceeds = true)
    (hs : e.seederOk = true)
    (hcf : create_flag m e.touch = Except.error err) :
    run_init e m =
      { outcome := RunOutcome.failedFlag, marker := m, seederInvoked := true,
        flagCreated := false, lockHeldEver := true, lockReleased := true } ∧
    runExitCode RunOutcome.failedFlag = some 1 := by
  refine ⟨?_, rfl⟩
  simp [run_init, hl, hm, hdb, hcd, hs, hcf]

theorem marker_write_failure_fails_loudly_witness :
    run_init demoTouchVanish markerAbsent =
      { outcome := RunOutcome.failedFlag, marker := markerAbsent,
        seederInvoked := true, flagCreated := false,
        lockHeldEver := true, lockReleased := true } ∧
    runExitCode RunOutcome.failedFlag = some 1 :=
  marker_write_failure_fails_loudly demoTouchVanish markerAbsent
    CreateFlagError.verifyFailed rfl rfl (by decide) rfl rfl rfl

/-- Claim C5: if the seeder fails, the marker is not set and the run
exits nonzero after releasing the lock, so a subsequent run (lock free,
marker still absent, environment healthy) invokes the seeder again and,
on success, sets the marker. -/
theorem seeder_failure_enables_retry (e1 e2 : RunEnv) (m : MarkerFs)
    (h1l : e1.lockAcquired = true)
    (hm : m.node = FsNode.absent) (hp : m.parentExists = true)
    (h1db : wait_for_database e1.db e1.dbTimeout e1.dbInterval e1.dbFuel = some true)
    (h1cd : safe_cd e1.appDirExists e1.cdSucceeds = true)
    (h1s : e1.seederOk = false)
    (h2 : healthyEnv e2) :
    run_init e1 m =
      { outcome := RunOutcome.failedSeeder, marker := m, seederInvoked := true,
        flagCreated := false, lockHeldEver := true, lockReleased := true } ∧
    runExitCode RunOutcome.failedSeeder = some 1 ∧
    check_flag_exists (run_init e1 m).marker.node = false ∧
    run_init e2 (run_init e1 m).marker =
      { outcome := RunOutcome.completed,
        marker := { node := FsNode.file, parentExists := true },
        seederInvoked := true, flagCreated := true,
        lockHeldEver := true, lockReleased := true } := by
  have hflag : check_flag_exists m.node = false := by
    simp [check_flag_exists, hm]
  have h1 : run_init e1 m =
      { outcome := RunOutcome.failedSeeder, marker := m, seederInvoked := true,
        flagCreated := false, lockHeldEver := true, lockReleased := true } := by
    simp [run_init, h1l, hflag, h1db, h1cd, h1s]
  refine ⟨h1, rfl, ?_, ?_⟩
  · rw [h1]
    exact hflag
  · rw [h1]
    exact run_init_healthy_absent e2 m h2 hm hp

theorem seeder_failure_enables_retry_witness :
    run_init demoSeederFail markerAbsent =
      { outcome := RunOutcome.failedSeeder, marker := markerAbsent,
        seederInvoked := true, flagCreated := false,
        lockHeldEver := true, lockReleased := true } ∧
    runExitCode RunOutcome.failedSeeder = some 1 ∧
    check_flag_exists (run_init demoSeederFail markerAbsent).marker.node = false ∧
    run_init demoEnv (run_init demoSeederFail markerAbsent).marker =
      { outcome := RunOutcome.completed,
        marker := { node := FsNode.file, parentExists := true },
        seederInvoked := true, flagCreated := true,
        lockHeldEver := true, lockReleased := true } :=
  seeder_failure_enables_retry demoSeederFail demoEnv markerAbsent
    rfl rfl rfl (by decide) rfl rfl demoEnv_healthy

/-- Claim C9: when the initialization script exists and terminates, the
entrypoint runs it and starts the main application exactly when the
script's exit code is zero; on a nonzero exit the entrypoint (under
`set -e`) terminates before `exec python main.py`. -/
theorem entrypoint_gates_on_init_exit (e : RunEnv) (m : MarkerFs) (c : Nat)
    (_hc : runExitCode (run_init e m).outcome = some c) :
    (entrypoint true c).ranInit = true ∧
    ((entrypoint true c).startedMain = true ↔ c = 0) := by
  by_cases h : c = 0 <;> simp [entrypoint, h]

theorem entrypoint_gates_on_init_exit_witness :
    (entrypoint true 1).ranInit = true ∧
    ((entrypoint true 1).startedMain = true ↔ 1 = 0) :=
  entrypoint_gates_on_init_exit demoSeederFail markerAbsent 1 (by decide)

/-- Claim C1: for N ≥ 2 instances launched concurrently on a fresh
(marker absent) state with a healthy dependency — serialised by the
`flock` into some order, here the list order — exactly one instance
invokes `python -m db.seeder` (the first in that order, which completes),
every other instance terminates skipped without invoking it, and the
marker is set exactly once and is present afterwards. -/
theorem seeder_invoked_exactly_once (envs : List RunEnv) (m : MarkerFs)
    (hall : ∀ e ∈ envs, healthyEnv e)
    (hm : m.node = FsNode.absent) (hp : m.parentExists = true)
    (hn : 2 ≤ envs.length) :
    ((run_all envs m).1.countP (fun r => r.seederInvoked)) = 1 ∧
    ((run_all envs m).1.countP (fun r => r.flagCreated)) = 1 ∧
    check_flag_exists (run_all envs m).2.node = true ∧
    ∃ rFirst rest, (run_all envs m).1 = rFirst :: rest ∧
      rFirst.outcome = RunOutcome.completed ∧
      ∀ r ∈ rest, r.outcome = RunOutcome.skipped ∧ r.seederInvoked = false := by
  obtain ⟨e, rest, rfl⟩ : ∃ e rest, envs = e :: rest := by
    cases envs with
    | nil => simp at hn
    | cons e rest => exact ⟨e, rest, rfl⟩
  have he := hall e (List.mem_cons_self e rest)
  have hrest : ∀ x ∈ rest, healthyEnv x :=
    fun x hx => hall x (List.mem_cons_of_mem e hx)
  have hrestLock : ∀ x ∈ rest, x.lockAcquired = true :=
    fun x hx => (hrest x hx).1
  have h1 := run_init_healthy_absent e m he hm hp
  have h2 := run_all_flag_present rest
    { node := FsNode.file, parentExists := true } hrestLock rfl
  have hr : run_all (e :: rest) m =
      ({ outcome := RunOutcome.completed,
         marker := { node := FsNode.file, parentExists := true },
         seederInvoked := true, flagCreated := true,
         lockHeldEver := true, lockReleased := true } ::
        rest.map (fun _ =>
          ({ outcome := RunOutcome.skipped,
             marker := { node := FsNode.file, parentExists := true },
             seederInvoked := false, flagCreated := false,
             lockHeldEver := true, lockReleased := true } : RunResult)),
       { node := FsNode.file, parentExists := true }) := by
    simp [run_all, h1, h2]
  rw [hr]
  have hz1 : (rest.map (fun _ =>
      ({ outcome := RunOutcome.skipped,
         marker := { node := FsNode.file, parentExists := true },
         seederInvoked := false, flagCreated := false,
         lockHeldEver := true, lockReleased := true } : RunResult))).countP
        (fun r => r.seederInvoked) = 0 := by
    rw [List.countP_eq_zero]
    intro a ha
    rcases List.mem_map.mp ha with ⟨x, _, rfl⟩
    simp
  have hz2 : (rest.map (fun _ =>
      ({ outcome := RunOutcome.skipped,
         marker := { node := FsNode.file, parentExists := true },
         seederInvoked := false, flagCreated := false,
         lockHeldEver := true, lockReleased := true } : RunResult))).countP
        (fun r => r.flagCreated) = 0 := by
    rw [List.countP_eq_zero]
    intro a ha
    rcases List.mem_map.mp ha with ⟨x, _, rfl⟩
    simp
  refine ⟨?_, ?_, rfl, ?_⟩
  · simp [List.countP_cons, hz1]
  · simp [List.countP_cons, hz2]
  · refine ⟨_, _, rfl, rfl, ?_⟩
    intro r hr
    rcases List.mem_map.mp hr with ⟨x, _, rfl⟩
    exact ⟨rfl, rfl⟩

theorem seeder_invoked_exactly_once_witness :
    ((run_all [demoEnv, demoEnv] markerAbsent).1.countP
      (fun r => r.seederInvoked)) = 1 ∧
    ((run_all [demoEnv, demoEnv] markerAbsent).1.countP
      (fun r => r.flagCreated)) = 1 ∧
    check_flag_exists (run_all [demoEnv, demoEnv] markerAbsent).2.node = true ∧
    ∃ rFirst rest, (run_all [demoEnv, demoEnv] markerAbsent).1 = rFirst :: rest ∧
      rFirst.outcome = RunOutcome.completed ∧
      ∀ r ∈ rest, r.outcome = RunOutcome.skipped ∧ r.seederInvoked = false :=
  seeder_invoked_exactly_once [demoEnv, demoEnv] markerAbsent
    (by
      intro x hx
      simp only [List.mem_cons, List.not_mem_nil, or_false] at hx
      rcases hx with rfl | rfl <;> exact demoEnv_healthy)
    rfl rfl (by decide)

end InitCoordinator
